import Mathlib

/-!
Verification of the NetBox MCP adapter server (`src/server.py`) against its
natural-language specification.

The embedding models the Python module shallowly:

* JSON values exchanged with the remote REST client become `JValue`
  (Python `None` is `JValue.null`, dicts are association lists).
* Python exceptions become the `Except PyError` monad; an operation that can
  raise returns `Except.error`.
* The remote client handle (`netbox`) becomes a `Behavior`: a function from a
  remote-call description (`Call`) to the value the remote returns or the
  exception it raises.  Each tool operation returns both its Python result
  (in `Except PyError JValue`) and the list of remote calls it issued, so that
  claims such as "the client is invoked exactly once with path p" or "no
  remote call is made" are the trace being `[c]` or `[]`.
-/

/-- A JSON-ish Python value: `None`, integers, strings, lists and dicts. -/
inductive JValue where
  | null
  | int (n : Int)
  | str (s : String)
  | list (xs : List JValue)
  | obj (fields : List (String × JValue))

/-- The Python exceptions the server can raise or observe. -/
inductive PyError where
  | valueError (msg : String)
  | keyError (key : String)
  | typeError (msg : String)
  | remote (msg : String)
deriving DecidableEq

/-- A Python dict used as filter parameters or request body. -/
abbrev Filters := List (String × JValue)

/-- One invocation of the remote REST client (`netbox.<method>(...)`).
`params`/`data` are recorded exactly as the Python call site passes them:
`none` when the Python call forwards `None`. -/
inductive Call where
  | get (path : String) (params : Option Filters)
  | get_count (path : String) (params : Option Filters)
  | create (path : String) (data : Filters)
  | update (path : String) (id : Int) (data : Filters)
  | delete (path : String) (id : Int)

/-- The remote client's behavior: what each call returns, or the exception it
raises (modelled as `Except.error`). -/
abbrev Behavior := Call → Except PyError JValue

/-- The catalog `NETBOX_OBJECT_TYPES`, transcribed entry for entry from
`src/server.py`. -/
def NETBOX_OBJECT_TYPES : List (String × String) :=
  [("cables", "dcim/cables"),
   ("console-ports", "dcim/console-ports"),
   ("console-server-ports", "dcim/console-server-ports"),
   ("devices", "dcim/devices"),
   ("device-bays", "dcim/device-bays"),
   ("device-roles", "dcim/device-roles"),
   ("device-types", "dcim/device-types"),
   ("front-ports", "dcim/front-ports"),
   ("interfaces", "dcim/interfaces"),
   ("inventory-items", "dcim/inventory-items"),
   ("locations", "dcim/locations"),
   ("manufacturers", "dcim/manufacturers"),
   ("modules", "dcim/modules"),
   ("module-bays", "dcim/module-bays"),
   ("module-types", "dcim/module-types"),
   ("platforms", "dcim/platforms"),
   ("power-feeds", "dcim/power-feeds"),
   ("power-outlets", "dcim/power-outlets"),
   ("power-panels", "dcim/power-panels"),
   ("power-ports", "dcim/power-ports"),
   ("racks", "dcim/racks"),
   ("rack-reservations", "dcim/rack-reservations"),
   ("rack-roles", "dcim/rack-roles"),
   ("regions", "dcim/regions"),
   ("sites", "dcim/sites"),
   ("site-groups", "dcim/site-groups"),
   ("virtual-chassis", "dcim/virtual-chassis"),
   ("asns", "ipam/asns"),
   ("asn-ranges", "ipam/asn-ranges"),
   ("aggregates", "ipam/aggregates"),
   ("fhrp-groups", "ipam/fhrp-groups"),
   ("ip-addresses", "ipam/ip-addresses"),
   ("ip-ranges", "ipam/ip-ranges"),
   ("prefixes", "ipam/prefixes"),
   ("rirs", "ipam/rirs"),
   ("roles", "ipam/roles"),
   ("route-targets", "ipam/route-targets"),
   ("services", "ipam/services"),
   ("vlans", "ipam/vlans"),
   ("vlan-groups", "ipam/vlan-groups"),
   ("vrfs", "ipam/vrfs"),
   ("circuits", "circuits/circuits"),
   ("circuit-types", "circuits/circuit-types"),
   ("circuit-terminations", "circuits/circuit-terminations"),
   ("providers", "circuits/providers"),
   ("provider-networks", "circuits/provider-networks"),
   ("clusters", "virtualization/clusters"),
   ("cluster-groups", "virtualization/cluster-groups"),
   ("cluster-types", "virtualization/cluster-types"),
   ("virtual-machines", "virtualization/virtual-machines"),
   ("vm-interfaces", "virtualization/interfaces"),
   ("tenants", "tenancy/tenants"),
   ("tenant-groups", "tenancy/tenant-groups"),
   ("contacts", "tenancy/contacts"),
   ("contact-groups", "tenancy/contact-groups"),
   ("contact-roles", "tenancy/contact-roles"),
   ("ike-policies", "vpn/ike-policies"),
   ("ike-proposals", "vpn/ike-proposals"),
   ("ipsec-policies", "vpn/ipsec-policies"),
   ("ipsec-profiles", "vpn/ipsec-profiles"),
   ("ipsec-proposals", "vpn/ipsec-proposals"),
   ("l2vpns", "vpn/l2vpns"),
   ("tunnels", "vpn/tunnels"),
   ("tunnel-groups", "vpn/tunnel-groups"),
   ("wireless-lans", "wireless/wireless-lans"),
   ("wireless-lan-groups", "wireless/wireless-lan-groups"),
   ("wireless-links", "wireless/wireless-links"),
   ("custom-links", "extras/custom-links"),
   ("custom-fields", "extras/custom-fields"),
   ("tags", "extras/tags"),
   ("export-templates", "extras/export-templates"),
   ("images-attachments", "extras/images-attachments"),
   ("save-filters", "extras/save-filters"),
   ("custom-field-choices", "extras/custom-field-choices"),
   ("webhooks", "extras/webhooks"),
   ("event-rules", "extras/event-rules"),
   ("object-types", "extras/object-types"),
   ("data-sources", "core/data-sources"),
   ("changelogs", "core/object-changes"),
   ("jobs", "core/jobs")]

/-- The catalog keys, in source order (Python `NETBOX_OBJECT_TYPES.keys()`). -/
def catalogKeys : List String := NETBOX_OBJECT_TYPES.map Prod.fst

/-- Python `sorted(NETBOX_OBJECT_TYPES.keys())`. -/
def sortedTypeKeys : List String := catalogKeys.mergeSort

/-- The message of the `ValueError` raised for an unknown object type:
`"Invalid object_type. Must be one of:\n" + "\n".join(f"- \x7bt\x7d" for t in sorted(keys))`. -/
def invalidObjectTypeMessage : String :=
  "Invalid object_type. Must be one of:\n" ++
    String.intercalate "\n" (sortedTypeKeys.map (fun t => "- " ++ t))

/-- Python `v[key]` on a JSON value: dict lookup raising `KeyError` when the
key is absent, `TypeError` when `v` is not a dict (string subscripts on
lists, strings, ints and `None` all raise `TypeError` in Python). -/
def subscript (v : JValue) (key : String) : Except PyError JValue :=
  match v with
  | JValue.obj fields =>
    match fields.lookup key with
    | some x => Except.ok x
    | none => Except.error (PyError.keyError key)
  | _ => Except.error (PyError.typeError "value is not subscriptable by string")

/-- Python iteration over a JSON value: lists yield their items, dicts their
keys, strings their characters; `None` and ints raise `TypeError`. -/
def pyIter (v : JValue) : Except PyError (List JValue) :=
  match v with
  | JValue.list xs => Except.ok xs
  | JValue.obj fields => Except.ok (fields.map (fun p => JValue.str p.fst))
  | JValue.str s => Except.ok (s.data.map (fun ch => JValue.str (String.mk [ch])))
  | _ => Except.error (PyError.typeError "value is not iterable")

/-- Python `len(v)`: defined for lists, dicts and strings; raises `TypeError`
on `None` and ints. -/
def pyLen (v : JValue) : Except PyError Nat :=
  match v with
  | JValue.list xs => Except.ok xs.length
  | JValue.obj fields => Except.ok fields.length
  | JValue.str s => Except.ok s.length
  | _ => Except.error (PyError.typeError "value has no length")

/-- Python truthiness of a JSON value (`bool(v)`). -/
def pyTruthy (v : JValue) : Bool :=
  match v with
  | JValue.null => false
  | JValue.int n => n != 0
  | JValue.str s => !s.isEmpty
  | JValue.list xs => !xs.isEmpty
  | JValue.obj fields => !fields.isEmpty

/-- Python `filters or \x7b\x7d` on an `Optional[dict]`: `None` and the empty
dict are falsy and yield the empty dict, any non-empty dict yields itself. -/
def pyOrEmpty (filters : Option Filters) : Filters :=
  match filters with
  | none => []
  | some d => if d.isEmpty then [] else d

/-- `get_count_objects(object_type, filters=None)` from `src/server.py`:
validate against the catalog, call `netbox.get_count(endpoint, params=filters)`
inside `try` (any exception is logged and `0` is returned), then return
`response["count"]` — the subscript sits outside the `try`. -/
def get_count_objects (b : Behavior) (object_type : String)
    (filters : Option Filters) : Except PyError JValue × List Call :=
  match NETBOX_OBJECT_TYPES.lookup object_type with
  | none => (Except.error (PyError.valueError invalidObjectTypeMessage), [])
  | some endpoint =>
    match b (Call.get_count endpoint filters) with
    | Except.error _ => (Except.ok (JValue.int 0), [Call.get_count endpoint filters])
    | Except.ok response => (subscript response "count", [Call.get_count endpoint filters])

/-- `get_objects(object_type, filters=None)` from `src/server.py`: validate,
then `return netbox.get(endpoint, params=filters)`. -/
def get_objects (b : Behavior) (object_type : String)
    (filters : Option Filters) : Except PyError JValue × List Call :=
  match NETBOX_OBJECT_TYPES.lookup object_type with
  | none => (Except.error (PyError.valueError invalidObjectTypeMessage), [])
  | some endpoint =>
    (b (Call.get endpoint filters), [Call.get endpoint filters])

/-- `get_object_by_id(object_type, object_id)` from `src/server.py`: validate,
build `f"\x7bendpoint\x7d/\x7bobject_id\x7d"`, then `return netbox.get(endpoint)`
(no `params` argument). -/
def get_object_by_id (b : Behavior) (object_type : String)
    (object_id : Int) : Except PyError JValue × List Call :=
  match NETBOX_OBJECT_TYPES.lookup object_type with
  | none => (Except.error (PyError.valueError invalidObjectTypeMessage), [])
  | some path =>
    (b (Call.get (path ++ "/" ++ toString object_id) none),
     [Call.get (path ++ "/" ++ toString object_id) none])

/-- The list comprehension inside `get_custom_fields`: iterate the response
and project `id`, `name`, `object_types`, `description` from each item. -/
def projectCustomFields (response : JValue) : Except PyError JValue := do
  let items ← pyIter response
  let projected ← items.mapM (fun item => do
    let i ← subscript item "id"
    let n ← subscript item "name"
    let o ← subscript item "object_types"
    let d ← subscript item "description"
    pure (JValue.obj [("id", i), ("name", n), ("object_types", o), ("description", d)]))
  pure (JValue.list projected)

/-- `get_custom_fields(object_type, filters)` from `src/server.py`: validate,
call `netbox.get(endpoint, params=filters)` OUTSIDE any `try` (so a remote
exception propagates), then run the projection comprehension inside
`try`, returning `None` if it raises. -/
def get_custom_fields (b : Behavior) (object_type : String)
    (filters : Filters) : Except PyError JValue × List Call :=
  match NETBOX_OBJECT_TYPES.lookup object_type with
  | none => (Except.error (PyError.valueError invalidObjectTypeMessage), [])
  | some endpoint =>
    match b (Call.get endpoint (some filters)) with
    | Except.error e => (Except.error e, [Call.get endpoint (some filters)])
    | Except.ok response =>
      match projectCustomFields response with
      | Except.ok v => (Except.ok v, [Call.get endpoint (some filters)])
      | Except.error _ => (Except.ok JValue.null, [Call.get endpoint (some filters)])

/-- `get_changelogs(filters=None)` from `src/server.py`: fixed endpoint
`core/object-changes`, no catalog validation, call
`netbox.get(endpoint, params=filters or \x7b\x7d)`, log
`f"Retrieved \x7blen(response)\x7d changelogs"` (so `len` is evaluated on the
response before anything else), return `[]` if the response is falsy,
otherwise the response itself. -/
def get_changelogs (b : Behavior)
    (filters : Option Filters) : Except PyError JValue × List Call :=
  match b (Call.get "core/object-changes" (some (pyOrEmpty filters))) with
  | Except.error e =>
    (Except.error e, [Call.get "core/object-changes" (some (pyOrEmpty filters))])
  | Except.ok response =>
    match pyLen response with
    | Except.error e =>
      (Except.error e, [Call.get "core/object-changes" (some (pyOrEmpty filters))])
    | Except.ok _ =>
      (if pyTruthy response then Except.ok response else Except.ok (JValue.list []),
       [Call.get "core/object-changes" (some (pyOrEmpty filters))])

/-- `create_object(object_type, data)` from `src/server.py`: validate, then
`return netbox.create(endpoint, data=data)`. -/
def create_object (b : Behavior) (object_type : String)
    (data : Filters) : Except PyError JValue × List Call :=
  match NETBOX_OBJECT_TYPES.lookup object_type with
  | none => (Except.error (PyError.valueError invalidObjectTypeMessage), [])
  | some endpoint =>
    (b (Call.create endpoint data), [Call.create endpoint data])

/-- `update_object(object_type, object_id, data)` from `src/server.py`:
validate, then `return netbox.update(endpoint, id=object_id, data=data)`. -/
def update_object (b : Behavior) (object_type : String) (object_id : Int)
    (data : Filters) : Except PyError JValue × List Call :=
  match NETBOX_OBJECT_TYPES.lookup object_type with
  | none => (Except.error (PyError.valueError invalidObjectTypeMessage), [])
  | some endpoint =>
    (b (Call.update endpoint object_id data), [Call.update endpoint object_id data])

/-- `delete_object(object_type, object_id)` from `src/server.py`: validate,
then `return netbox.delete(endpoint, id=object_id)`. -/
def delete_object (b : Behavior) (object_type : String)
    (object_id : Int) : Except PyError JValue × List Call :=
  match NETBOX_OBJECT_TYPES.lookup object_type with
  | none => (Except.error (PyError.valueError invalidObjectTypeMessage), [])
  | some endpoint =>
    (b (Call.delete endpoint object_id), [Call.delete endpoint object_id])

/-- A UTC instant as Python's `datetime.now(timezone.utc)` observes it. -/
structure UtcDateTime where
  year : Nat
  month : Nat
  day : Nat
  hour : Nat
  minute : Nat
  second : Nat
  microsecond : Nat

/-- Decimal rendering of `n` left-padded with zeros to `width` digits. -/
def padNat (width n : Nat) : String :=
  let s := toString n
  String.mk (List.replicate (width - s.length) '0') ++ s

/-- Python `datetime.isoformat()` for a `timezone.utc`-aware datetime:
`YYYY-MM-DDTHH:MM:SS[.ffffff]+00:00`, the fractional part omitted when the
microsecond field is zero. -/
def isoformat (t : UtcDateTime) : String :=
  padNat 4 t.year ++ "-" ++ padNat 2 t.month ++ "-" ++ padNat 2 t.day ++ "T" ++
    padNat 2 t.hour ++ ":" ++ padNat 2 t.minute ++ ":" ++ padNat 2 t.second ++
    (if t.microsecond == 0 then "" else "." ++ padNat 6 t.microsecond) ++ "+00:00"

/-- `get_current_time_iso()` from `src/server.py`, with the current instant
made an explicit input: the first `isoformat` of `now` is computed and then
overwritten by the `isoformat` of
`now.replace(hour=0, minute=0, second=0, microsecond=0)`, which is what the
function returns. -/
def get_current_time_iso (now : UtcDateTime) : String :=
  let _current_time := isoformat now
  let current_time :=
    isoformat { now with hour := 0, minute := 0, second := 0, microsecond := 0 }
  current_time

/-- A remote client that raises on every call (network/transport failure). -/
def raiseBehavior : Behavior := fun _ => Except.error (PyError.remote "connection refused")

/-- A remote client that returns `None` on every call. -/
def nullBehavior : Behavior := fun _ => Except.ok JValue.null

/-- A remote client whose responses are envelopes without a `count` key. -/
def noCountBehavior : Behavior := fun _ => Except.ok (JValue.obj [("results", JValue.list [])])

/-- A remote client returning a one-element list on every call. -/
def oneItemBehavior : Behavior := fun _ => Except.ok (JValue.list [JValue.int 1])

theorem lookup_eq_none_of_not_mem_keys {s : String} {l : List (String × String)}
    (h : s ∉ l.map Prod.fst) : l.lookup s = none := by
  induction l with
  | nil => rfl
  | cons p t ih =>
    simp only [List.map_cons, List.mem_cons, not_or] at h
    have hne : (s == p.1) = false := beq_eq_false_iff_ne.mpr h.1
    simp [List.lookup, hne, ih h.2]

/-- Whatever the remote does, `get_changelogs` issues exactly one call:
a `get` on the fixed path with the normalized filters. -/
theorem get_changelogs_snd (b : Behavior) (f : Option Filters) :
    (get_changelogs b f).snd = [Call.get "core/object-changes" (some (pyOrEmpty f))] := by
  rcases hb : b (Call.get "core/object-changes" (some (pyOrEmpty f))) with e | response
  · simp [get_changelogs, hb]
  · rcases hl : pyLen response with e | n <;> simp [get_changelogs, hb, hl]

/-- For a valid object type, `get_count_objects` issues exactly one
`get_count` call, with the caller's filters forwarded as given. -/
theorem get_count_objects_snd (b : Behavior) (t p : String) (f : Option Filters)
    (ht : NETBOX_OBJECT_TYPES.lookup t = some p) :
    (get_count_objects b t f).snd = [Call.get_count p f] := by
  rcases hb : b (Call.get_count p f) with e | response <;>
    simp [get_count_objects, ht, hb]

/-- C4: the spec says `get_current_time_iso` returns the current UTC instant
as an ISO-8601 string, and the function's own docstring says the same; the
code instead truncates the instant to midnight before formatting.  At the
instant 2026-10-12T15:30:00Z the function returns the midnight rendering,
not the instant's rendering. -/
theorem C4_midnight_truncation :
    get_current_time_iso ⟨2026, 10, 12, 15, 30, 0, 0⟩ = "2026-10-12T00:00:00+00:00" ∧
    isoformat ⟨2026, 10, 12, 15, 30, 0, 0⟩ = "2026-10-12T15:30:00+00:00" ∧
    get_current_time_iso ⟨2026, 10, 12, 15, 30, 0, 0⟩ ≠
      isoformat ⟨2026, 10, 12, 15, 30, 0, 0⟩ := by
  refine ⟨rfl, rfl, ?_⟩
  decide

/-- C6: `get_changelogs` with the filters argument absent forwards the empty
filter mapping and is observationally equivalent to passing an explicit empty
mapping: for every remote behavior the two invocations are the same result
and the same single remote request. -/
theorem C6_changelogs_none_eq_empty (b : Behavior) :
    get_changelogs b none = get_changelogs b (some []) ∧
    (get_changelogs b none).snd = [Call.get "core/object-changes" (some [])] :=
  ⟨rfl, get_changelogs_snd b none⟩

/-- C7: `get_objects("devices", \x7b"site_id": 5\x7d)` resolves the catalog entry
to `dcim/devices`, issues exactly one remote `get` with that path and exactly
that filter mapping, and returns the remote response unmodified. -/
theorem C7_get_objects_devices (b : Behavior) :
    get_objects b "devices" (some [("site_id", JValue.int 5)]) =
      (b (Call.get "dcim/devices" (some [("site_id", JValue.int 5)])),
       [Call.get "dcim/devices" (some [("site_id", JValue.int 5)])]) := rfl

/-- C8: `get_object_by_id("racks", 42)` appends the id to the resolved path,
giving `dcim/racks/42`, issues exactly one remote `get` with that path, and
returns its result. -/
theorem C8_get_object_by_id_racks (b : Behavior) :
    get_object_by_id b "racks" 42 =
      (b (Call.get "dcim/racks/42" none), [Call.get "dcim/racks/42" none]) := rfl

/-- C1 counterexample: against a remote whose (successful) response envelope
lacks the `count` key, `get_count_objects("devices", None)` raises a
`KeyError` instead of returning `0` — `response["count"]` sits outside the
`try` block. -/
theorem C1_counterexample :
    (get_count_objects noCountBehavior "devices" none).fst =
      Except.error (PyError.keyError "count") ∧
    (get_count_objects noCountBehavior "devices" none).fst ≠
      Except.ok (JValue.int 0) := by
  constructor
  · rfl
  · intro h
    have h2 : (Except.error (PyError.keyError "count") : Except PyError JValue) =
        Except.ok (JValue.int 0) := h
    exact Except.noConfusion h2

/-- C1 amended: for a valid object type, an exception raised by the remote
`get_count` call is swallowed and `0` is returned; but when the call succeeds
the operation returns `response["count"]`, whose `KeyError`/`TypeError` (for
an envelope lacking the key, or a non-dict response) propagates to the
caller.  Exactly one remote call is issued either way. -/
theorem C1_amended_count_error_handling (b : Behavior) (t p : String)
    (f : Option Filters) (ht : NETBOX_OBJECT_TYPES.lookup t = some p) :
    (∀ e, b (Call.get_count p f) = Except.error e →
      get_count_objects b t f = (Except.ok (JValue.int 0), [Call.get_count p f])) ∧
    (∀ r, b (Call.get_count p f) = Except.ok r →
      get_count_objects b t f = (subscript r "count", [Call.get_count p f])) := by
  constructor
  · intro e he
    simp [get_count_objects, ht, he]
  · intro r hr
    simp [get_count_objects, ht, hr]

/-- C1 witness: on a remote that raises, counting devices returns `0`. -/
theorem C1_witness :
    get_count_objects raiseBehavior "devices" none =
      (Except.ok (JValue.int 0), [Call.get_count "dcim/devices" none]) :=
  (C1_amended_count_error_handling raiseBehavior "devices" "dcim/devices" none rfl).1
    (PyError.remote "connection refused") rfl

/-- C2 counterexample: when the remote `get` call itself raises,
`get_custom_fields("devices", \x7b\x7d)` propagates the exception instead of
returning an absent result — the call sits outside the `try` block. -/
theorem C2_counterexample :
    (get_custom_fields raiseBehavior "devices" []).fst =
      Except.error (PyError.remote "connection refused") ∧
    (get_custom_fields raiseBehavior "devices" []).fst ≠ Except.ok JValue.null := by
  constructor
  · rfl
  · intro h
    have h2 : (Except.error (PyError.remote "connection refused") : Except PyError JValue) =
        Except.ok JValue.null := h
    exact Except.noConfusion h2

/-- C2 amended: for a valid object type, a failure of the remote call itself
propagates to the caller; when the call succeeds but the response is
malformed (not iterable, or items lacking one of the projected keys) the
projection error is caught and `None` is returned; when the projection
succeeds its value is returned.  Exactly one remote call is issued in every
case. -/
theorem C2_amended_custom_fields_error_handling (b : Behavior) (t p : String)
    (f : Filters) (ht : NETBOX_OBJECT_TYPES.lookup t = some p) :
    (∀ e, b (Call.get p (some f)) = Except.error e →
      get_custom_fields b t f = (Except.error e, [Call.get p (some f)])) ∧
    (∀ r e, b (Call.get p (some f)) = Except.ok r →
      projectCustomFields r = Except.error e →
      get_custom_fields b t f = (Except.ok JValue.null, [Call.get p (some f)])) ∧
    (∀ r v, b (Call.get p (some f)) = Except.ok r →
      projectCustomFields r = Except.ok v →
      get_custom_fields b t f = (Except.ok v, [Call.get p (some f)])) := by
  refine ⟨?_, ?_, ?_⟩
  · intro e he
    simp [get_custom_fields, ht, he]
  · intro r e hr hp
    simp [get_custom_fields, ht, hr, hp]
  · intro r v hr hp
    simp [get_custom_fields, ht, hr, hp]

/-- C2 witness: a remote returning `None` (not iterable) makes
`get_custom_fields` return `None` rather than raise. -/
theorem C2_witness :
    get_custom_fields nullBehavior "devices" [] =
      (Except.ok JValue.null, [Call.get "dcim/devices" (some [])]) :=
  (C2_amended_custom_fields_error_handling nullBehavior "devices" "dcim/devices" [] rfl).2.1
    JValue.null (PyError.typeError "value is not iterable") rfl rfl

/-- C3: each of the seven catalog-validated operations, applied to a string
that is not a catalog key, raises `ValueError` with the message listing every
catalog key in lexicographically sorted order, and issues no remote call
(the trace is empty).  `sortedTypeKeys` is sorted, is a permutation of the
catalog keys, and is what the message enumerates. -/
theorem C3_invalid_object_type (b : Behavior) (s : String) (f : Option Filters)
    (ff d : Filters) (i : Int) (hs : s ∉ catalogKeys) :
    get_objects b s f = (Except.error (PyError.valueError invalidObjectTypeMessage), []) ∧
    get_object_by_id b s i = (Except.error (PyError.valueError invalidObjectTypeMessage), []) ∧
    get_count_objects b s f = (Except.error (PyError.valueError invalidObjectTypeMessage), []) ∧
    get_custom_fields b s ff = (Except.error (PyError.valueError invalidObjectTypeMessage), []) ∧
    create_object b s d = (Except.error (PyError.valueError invalidObjectTypeMessage), []) ∧
    update_object b s i d = (Except.error (PyError.valueError invalidObjectTypeMessage), []) ∧
    delete_object b s i = (Except.error (PyError.valueError invalidObjectTypeMessage), []) ∧
    List.Sorted (· ≤ ·) sortedTypeKeys ∧
    sortedTypeKeys.Perm catalogKeys ∧
    invalidObjectTypeMessage =
      "Invalid object_type. Must be one of:\n" ++
        String.intercalate "\n" (sortedTypeKeys.map (fun t => "- " ++ t)) := by
  have hl : NETBOX_OBJECT_TYPES.lookup s = none := lookup_eq_none_of_not_mem_keys hs
  refine ⟨?_, ?_, ?_, ?_, ?_, ?_, ?_, ?_, ?_, rfl⟩
  · simp [get_objects, hl]
  · simp [get_object_by_id, hl]
  · simp [get_count_objects, hl]
  · simp [get_custom_fields, hl]
  · simp [create_object, hl]
  · simp [update_object, hl]
  · simp [delete_object, hl]
  · exact List.sorted_mergeSort' catalogKeys
  · exact List.mergeSort_perm catalogKeys _

/-- C3 witness: the string `bogus` is not a catalog key and `get_objects`
rejects it without calling the remote. -/
theorem C3_witness :
    "bogus" ∉ catalogKeys ∧
    get_objects raiseBehavior "bogus" none =
      (Except.error (PyError.valueError invalidObjectTypeMessage), []) :=
  ⟨by decide, (C3_invalid_object_type raiseBehavior "bogus" none [] [] 0 (by decide)).1⟩

/-- C5 counterexample: a remote returning `None` (an absent result) makes
`get_changelogs` raise a `TypeError` when the response length is computed for
logging, instead of returning an empty sequence. -/
theorem C5_counterexample :
    (get_changelogs nullBehavior (some [])).fst =
      Except.error (PyError.typeError "value has no length") ∧
    (get_changelogs nullBehavior (some [])).fst ≠ Except.ok (JValue.list []) := by
  constructor
  · rfl
  · intro h
    have h2 : (Except.error (PyError.typeError "value has no length") : Except PyError JValue) =
        Except.ok (JValue.list []) := h
    exact Except.noConfusion h2

/-- C5 amended: `get_changelogs` issues exactly one remote `get` on the fixed
path `core/object-changes` (never consulting the catalog), forwards a dict
filter argument unmodified, returns a non-empty remote list verbatim and an
empty remote list as an empty sequence; only an absent (`None`) remote result
escapes this contract by raising (see the counterexample). -/
theorem C5_amended_changelogs (b : Behavior) (d : Filters) (xs : List JValue)
    (h : b (Call.get "core/object-changes" (some d)) = Except.ok (JValue.list xs)) :
    pyOrEmpty (some d) = d ∧
    get_changelogs b (some d) =
      (Except.ok (JValue.list (if xs.isEmpty then [] else xs)),
       [Call.get "core/object-changes" (some d)]) := by
  have hd : pyOrEmpty (some d) = d := by
    cases d
    · rfl
    · rfl
  refine ⟨hd, ?_⟩
  simp only [get_changelogs, hd, h]
  cases xs
  · simp [pyLen, pyTruthy]
  · simp [pyLen, pyTruthy]

/-- C5 witness: a one-element remote changelog list is returned verbatim. -/
theorem C5_witness :
    pyOrEmpty (some []) = [] ∧
    get_changelogs oneItemBehavior (some []) =
      (Except.ok (JValue.list [JValue.int 1]),
       [Call.get "core/object-changes" (some [])]) :=
  C5_amended_changelogs oneItemBehavior [] [JValue.int 1] rfl

/-- C9: for every valid object type and data mapping, `create_object` issues
exactly one remote `create` with the resolved path and the data unmodified,
and returns the remote's return value unchanged; `devices` resolves to
`dcim/devices`. -/
theorem C9_create_object (b : Behavior) (t p : String) (d : Filters)
    (ht : NETBOX_OBJECT_TYPES.lookup t = some p) :
    create_object b t d = (b (Call.create p d), [Call.create p d]) ∧
    NETBOX_OBJECT_TYPES.lookup "devices" = some "dcim/devices" := by
  refine ⟨?_, rfl⟩
  simp [create_object, ht]

/-- The body of end-to-end scenario D in the spec. -/
def r1DeviceData : Filters := [("name", JValue.str "r1"), ("site", JValue.int 1)]

/-- C9 witness: creating a device delegates to a single remote
`create("dcim/devices", data)` and passes its return value through. -/
theorem C9_witness :
    create_object raiseBehavior "devices" r1DeviceData =
      (raiseBehavior (Call.create "dcim/devices" r1DeviceData),
       [Call.create "dcim/devices" r1DeviceData]) :=
  (C9_create_object raiseBehavior "devices" "dcim/devices" r1DeviceData rfl).1

/-- C10: with the filters argument omitted, `get_objects` and
`get_count_objects` forward `None` — not an empty mapping — as the `params`
argument of the remote call, while `get_changelogs` normalizes the omitted
argument to the empty mapping before calling. -/
theorem C10_omitted_filters_forward_none (b : Behavior) (t p : String)
    (ht : NETBOX_OBJECT_TYPES.lookup t = some p) :
    get_objects b t none = (b (Call.get p none), [Call.get p none]) ∧
    (get_count_objects b t none).snd = [Call.get_count p none] ∧
    (get_changelogs b none).snd = [Call.get "core/object-changes" (some [])] := by
  refine ⟨?_, get_count_objects_snd b t p none ht, get_changelogs_snd b none⟩
  simp [get_objects, ht]

/-- C10 witness: concrete instance at object type `sites`. -/
theorem C10_witness :
    get_objects raiseBehavior "sites" none =
      (raiseBehavior (Call.get "dcim/sites" none), [Call.get "dcim/sites" none]) ∧
    (get_count_objects raiseBehavior "sites" none).snd = [Call.get_count "dcim/sites" none] ∧
    (get_changelogs raiseBehavior none).snd = [Call.get "core/object-changes" (some [])] :=
  C10_omitted_filters_forward_none raiseBehavior "sites" "dcim/sites" rfl

/-- C6 witness: concrete instance against a raising remote. -/
theorem C6_witness :
    get_changelogs raiseBehavior none = get_changelogs raiseBehavior (some []) ∧
    (get_changelogs raiseBehavior none).snd = [Call.get "core/object-changes" (some [])] :=
  C6_changelogs_none_eq_empty raiseBehavior

/-- C7 witness: concrete instance against a raising remote. -/
theorem C7_witness :
    get_objects raiseBehavior "devices" (some [("site_id", JValue.int 5)]) =
      (raiseBehavior (Call.get "dcim/devices" (some [("site_id", JValue.int 5)])),
       [Call.get "dcim/devices" (some [("site_id", JValue.int 5)])]) :=
  C7_get_objects_devices raiseBehavior

/-- C8 witness: concrete instance against a raising remote. -/
theorem C8_witness :
    get_object_by_id raiseBehavior "racks" 42 =
      (raiseBehavior (Call.get "dcim/racks/42" none), [Call.get "dcim/racks/42" none]) :=
  C8_get_object_by_id_racks raiseBehavior
